import Mathlib

/-
Verification of the session-token subsystem of the posted-server repository:
the AuthService state machine (src/auth/auth.rs), its two token stores
(src/auth/redis_auth.rs, src/auth/backup_auth.rs) and the Redis cache client
(src/cache/cache.rs).

Strings are modelled as lists of characters.  Decimal rendering and parsing
model the Rust formatting machinery used by the source: format args render
unsigned integers as their decimal digits, and str::parse::<u64> accepts an
optional leading plus sign followed by at least one decimal digit, failing
on overflow past 2^64 - 1.
-/

namespace Posted

/-- Character strings, modelled as lists of characters. -/
abbrev Str := List Char

/-- The decimal digit characters, by value; values ten and above never arise. -/
def digitChar (d : Nat) : Char :=
  match d with
  | 0 => '0'
  | 1 => '1'
  | 2 => '2'
  | 3 => '3'
  | 4 => '4'
  | 5 => '5'
  | 6 => '6'
  | 7 => '7'
  | 8 => '8'
  | 9 => '9'
  | _ => '*'

/-- Decimal digits of a natural number, most significant first.  Fuel-based
structural recursion so that concrete values reduce inside the kernel. -/
def natDigitsGo : Nat → Nat → List Nat
  | 0, n => [n % 10]
  | fuel + 1, n => if n < 10 then [n] else natDigitsGo fuel (n / 10) ++ [n % 10]

/-- Decimal digits of a natural number, most significant first. -/
def natDigits (n : Nat) : List Nat := natDigitsGo n n

/-- Decimal rendering of a natural number, modelling Rust format args on
unsigned integers. -/
def natToStr (n : Nat) : Str := (natDigits n).map digitChar

/-- Numeric value of a decimal digit character, none for a non-digit. -/
def charDigit? (c : Char) : Option Nat :=
  if 48 ≤ c.toNat ∧ c.toNat ≤ 57 then some (c.toNat - 48) else none

/-- Value of a digit list read most significant first. -/
def digitsVal (l : List Nat) : Nat := l.foldl (fun a d => a * 10 + d) 0

/-- Parse a nonempty all-digit string into its value; none otherwise. -/
def digitsVal? (s : Str) : Option Nat :=
  match s with
  | [] => none
  | _ => s.foldl (fun acc c => acc.bind (fun a => (charDigit? c).map (fun d => a * 10 + d)))
      (some 0)

/-- Model of str::parse::<u64>: an optional leading plus sign, then a
nonempty run of decimal digits, overflow past 2^64 - 1 rejected. -/
def parseU64 (s : Str) : Option Nat :=
  let body := if s.head? = some '+' then s.tail else s
  match digitsVal? body with
  | some v => if v < 2 ^ 64 then some v else none
  | none => none

/-- Model of str::split_once: split at the first occurrence of the separator,
none when the separator does not occur. -/
def splitOnce (s : Str) (sep : Char) : Option (Str × Str) :=
  match s with
  | [] => none
  | c :: rest =>
    if c = sep then some ([], rest)
    else
      match splitOnce rest sep with
      | some (l, r) => some (c :: l, r)
      | none => none

/--
Model of the uuid crate as used by the source: a Uuid is a 128-bit random
value; its canonical string form is an injective rendering with parse_str as
a partial inverse, failing on the empty string and on any string that is not
the rendering of a value.  The concrete rendering is abstracted to the
decimal one defined above; none of the verified properties depend on the
hex-and-hyphen shape of the real canonical form, only on injectivity,
round-tripping and parse failure on garbage.
-/
abbrev Uuid := Nat

/-- String form of a token, modelling Uuid::to_string. -/
def Uuid.toStr (u : Uuid) : Str := natToStr u

/-- Model of Uuid::parse_str. -/
def Uuid.parseStr (s : Str) : Option Uuid := digitsVal? s

/- ----------------------------------------------------------------- -/
/- Cache client model (src/cache/cache.rs and src/cache/error.rs).    -/
/- ----------------------------------------------------------------- -/

/-- Error taxonomy of the cache client, from src/cache/error.rs.  The
RedisErr payload is dropped. -/
inductive CacheErr where
  | NilResponse
  | AsyncConnFailure
  | ConnectionLost
  | RedisErr
deriving DecidableEq, Repr

/-- An entry to be written to the key-value store, from src/cache/cache.rs. -/
structure Entry where
  key : Str
  value : Str
  expiry_sec : Nat
deriving DecidableEq, Repr

def Entry.new (key value : Str) (expiry_sec : Nat) : Entry :=
  { key := key, value := value, expiry_sec := expiry_sec }

/-- State of the remote key-value store: an association list from keys to
value and remaining time-to-live, most recent write first. -/
abbrev Kv := List (Str × Str × Nat)

/-- Read a key from the store. -/
def kvGet (kv : Kv) (k : Str) : Option Str :=
  match kv with
  | [] => none
  | e :: rest => if e.1 = k then some e.2.1 else kvGet rest k

/-- Remove every binding of a key. -/
def kvRemove (kv : Kv) (k : Str) : Kv :=
  match kv with
  | [] => []
  | e :: rest => if e.1 = k then kvRemove rest k else e :: kvRemove rest k

/-- Redis SET with EX: unconditional write of a key with a time-to-live. -/
def kvSet (kv : Kv) (k v : Str) (expiry : Nat) : Kv :=
  (k, v, expiry) :: kvRemove kv k

/-- Redis SET with EX and NX: write only when the key is absent. -/
def kvSetNx (kv : Kv) (k v : Str) (expiry : Nat) : Kv :=
  match kvGet kv k with
  | some _ => kv
  | none => (k, v, expiry) :: kv

/-- A single write in a Redis pipeline. -/
inductive RWrite where
  | setEx : Str → Str → Nat → RWrite
  | setExNx : Str → Str → Nat → RWrite
deriving DecidableEq, Repr

/-- Apply one pipelined write to the store. -/
def applyWrite (kv : Kv) : RWrite → Kv
  | .setEx k v e => kvSet kv k v e
  | .setExNx k v e => kvSetNx kv k v e

/-- The RedisPipelineExt set_ex_symmetric extension: a forward and a reverse
unconditional write for one entry. -/
def set_ex_symmetric (entry : Entry) : List RWrite :=
  [RWrite.setEx entry.key entry.value entry.expiry_sec,
   RWrite.setEx entry.value entry.key entry.expiry_sec]

/-- The RedisPipelineExt set_ex_nx extension: one conditional write. -/
def set_ex_nx (entry : Entry) : List RWrite :=
  [RWrite.setExNx entry.key entry.value entry.expiry_sec]

/-- The RedisPipelineExt set_ex_nx_symmetric extension: a forward and a
reverse conditional write for one entry. -/
def set_ex_nx_symmetric (entry : Entry) : List RWrite :=
  [RWrite.setExNx entry.key entry.value entry.expiry_sec,
   RWrite.setExNx entry.value entry.key entry.expiry_sec]

/-- add_to_pipe from src/cache/cache.rs: the writes contributed by one entry
for a given symmetric and overwrite flag pair. -/
def add_to_pipe (entry : Entry) (symmetric overwrite : Bool) : List RWrite :=
  match symmetric, overwrite with
  | true, true => set_ex_symmetric entry
  | true, false => set_ex_nx_symmetric entry
  | false, true => [RWrite.setEx entry.key entry.value entry.expiry_sec]
  | false, false => set_ex_nx entry

/-- Per-call outcome environment for the cache client: whether obtaining the
multiplexed connection succeeds, whether the pipelined query succeeds, and an
injected transport-level error for a read, none meaning the read reaches the
store. -/
structure CacheCtx where
  connOk : Bool
  queryOk : Bool
  getErr : Option CacheErr
deriving DecidableEq, Repr

/-- Handle to the Redis client, from src/cache/cache.rs.  The connection
state and store contents are threaded separately through CacheCtx and Kv. -/
structure Cache
deriving DecidableEq, Repr

/-- Cache::get: obtain a connection, then read the key; a nil reply for an
absent key surfaces as NilResponse through the RedisError conversion. -/
def Cache.get (ctx : CacheCtx) (kv : Kv) (key : Str) : Except CacheErr Str :=
  if ctx.connOk = false then .error .AsyncConnFailure
  else
    match ctx.getErr with
    | some e => .error e
    | none =>
      match kvGet kv key with
      | some v => .ok v
      | none => .error .NilResponse

/-- Cache::set_multiple: obtain a connection, build one pipeline holding the
writes of every entry, execute it, and discard the result of the execution,
returning Ok unconditionally once the connection was obtained. -/
def Cache.set_multiple (ctx : CacheCtx) (kv : Kv) (entries : List Entry)
    (symmetric overwrite : Bool) : Except Unit Unit × Kv :=
  if ctx.connOk = false then (.error (), kv)
  else
    let pipe := entries.flatMap (fun e => add_to_pipe e symmetric overwrite)
    let kv' := if ctx.queryOk then pipe.foldl applyWrite kv else kv
    (.ok (), kv')

/- ----------------------------------------------------------------- -/
/- Remote token store (src/auth/redis_auth.rs).                       -/
/- ----------------------------------------------------------------- -/

def DAY_IN_SECONDS : Nat := 60 * 60 * 12

/-- The remote token store, wrapping the cache client. -/
structure RedisAuth where
  redis_cache : Cache
deriving DecidableEq, Repr

def RedisAuth.new (redis_cache : Cache) : RedisAuth :=
  { redis_cache := redis_cache }

/-- Forward entry: token string maps to username-bang-user_id. -/
def create_token_to_user_entry (token : Uuid) (username : Str) (user_id : Nat) : Entry :=
  Entry.new (Uuid.toStr token) (username ++ '!' :: natToStr user_id) DAY_IN_SECONDS

/-- Reverse entry: username maps to token-bang-user_id. -/
def create_user_to_token_entry (username : Str) (token : Uuid) (user_id : Nat) : Entry :=
  Entry.new username (Uuid.toStr token ++ '!' :: natToStr user_id) DAY_IN_SECONDS

/-- separate_token_result from src/auth/redis_auth.rs: split a stored value
of the form username-bang-user_id at the first bang, rejecting an empty
side, a bang in the right side, or a right side that does not parse. -/
def separate_token_result (value : Str) : Except Unit (Str × Nat) :=
  match splitOnce value '!' with
  | none => .error ()
  | some (left, right) =>
    if left.isEmpty || right.isEmpty || right.contains '!' then .error ()
    else
      match parseU64 right with
      | some id => .ok (left, id)
      | none => .error ()

/-- RedisAuth::generate_for_user: generate a fresh token (supplied here as
the fresh argument), write a forward and a reverse entry through one
set_multiple call with symmetric false and overwrite true, and return the
token, or the unit error when set_multiple failed. -/
def RedisAuth.generate_for_user (_self : RedisAuth) (fresh : Uuid) (user_id : Nat)
    (username : Str) (ctx : CacheCtx) (kv : Kv) : Except Unit Uuid × Kv :=
  let token_to_user := create_token_to_user_entry fresh username user_id
  let user_to_token := create_user_to_token_entry username fresh user_id
  match Cache.set_multiple ctx kv [token_to_user, user_to_token] false true with
  | (.ok _, kv') => (.ok fresh, kv')
  | (.error _, kv') => (.error (), kv')

/-- RedisAuth::validate_username: read the entry keyed by the token string;
a nil reply means Ok false, any other read failure is the unit error; then
split the stored value and compare the stored username. -/
def RedisAuth.validate_username (_self : RedisAuth) (username : Str) (token : Uuid)
    (ctx : CacheCtx) (kv : Kv) : Except Unit Bool :=
  match Cache.get ctx kv (Uuid.toStr token) with
  | .error .NilResponse => .ok false
  | .error _ => .error ()
  | .ok value =>
    match separate_token_result value with
    | .error _ => .error ()
    | .ok (stored_username, _) => .ok (stored_username == username)

/- ----------------------------------------------------------------- -/
/- In-memory fallback token store (src/auth/backup_auth.rs).          -/
/- ----------------------------------------------------------------- -/

/-- The token registry, modelling the HashMap from user id to token as an
association list, most recent insertion first. -/
abbrev TokenRegistry := List (Nat × Uuid)

/-- HashMap::insert: bind the key to the value, dropping any prior binding. -/
def tokensInsert (m : TokenRegistry) (k : Nat) (v : Uuid) : TokenRegistry :=
  (k, v) :: m.filter (fun e => decide (e.1 ≠ k))

/-- HashMap::get. -/
def tokensGet (m : TokenRegistry) (k : Nat) : Option Uuid :=
  match m with
  | [] => none
  | e :: rest => if e.1 = k then some e.2 else tokensGet rest k

/-- The in-memory fallback store. -/
structure OfflineAuth where
  tokens : TokenRegistry
deriving DecidableEq, Repr

def OfflineAuth.new : OfflineAuth := { tokens := [] }

/-- OfflineAuth::generate_for_user: insert the fresh token under the user id,
overwriting any prior token, and return it.  No failure mode. -/
def OfflineAuth.generate_for_user (self : OfflineAuth) (fresh : Uuid) (user_id : Nat) :
    Uuid × OfflineAuth :=
  (fresh, { tokens := tokensInsert self.tokens user_id fresh })

/-- OfflineAuth::validate: true iff a token is registered for the user id
and equals the given one. -/
def OfflineAuth.validate (self : OfflineAuth) (user_id : Nat) (token : Uuid) : Bool :=
  match tokensGet self.tokens user_id with
  | some registered => registered == token
  | none => false

/- ----------------------------------------------------------------- -/
/- AuthService (src/auth/auth.rs).                                    -/
/- ----------------------------------------------------------------- -/

instance exceptDecEq {ε α : Type} [DecidableEq ε] [DecidableEq α] :
    DecidableEq (Except ε α) := fun x y =>
  match x, y with
  | .ok a, .ok b =>
    if h : a = b then isTrue (by rw [h])
    else isFalse (by intro hh; cases hh; exact h rfl)
  | .error a, .error b =>
    if h : a = b then isTrue (by rw [h])
    else isFalse (by intro hh; cases hh; exact h rfl)
  | .ok _, .error _ => isFalse (by intro hh; cases hh)
  | .error _, .ok _ => isFalse (by intro hh; cases hh)

def MAX_CONNECT_TIME : Nat := 1

def RECONNECT_FREQUENCY : Nat := 1

/-- One connection attempt of Cache::new: its outcome and the wall-clock
seconds it takes to complete. -/
structure Probe where
  result : Except Unit Cache
  duration : Nat
deriving DecidableEq, Repr

/-- Model of mpsc::Receiver::recv_timeout at the point where try_connect
calls it.  thread::scope joins the spawned sender thread before returning,
so by the time recv_timeout runs the sent message is already buffered in the
channel; a buffered message is returned immediately and the timeout branch
fires only when no message was ever sent. -/
def recv_timeout {α : Type} (buffered : Option α) (_timeout_sec : Nat) : Except Unit α :=
  match buffered with
  | some v => .ok v
  | none => .error ()

/-- try_connect from src/auth/auth.rs.  The spawned thread runs Cache::new
(taking probe.duration seconds) and sends its outcome; thread::scope blocks
the caller until that thread finishes, so the elapsed time of try_connect
(the second component) is the full probe duration whatever its relation to
MAX_CONNECT_TIME, and the subsequent recv_timeout always finds the message
already buffered. -/
def try_connect (p : Probe) : Except Unit Cache × Nat :=
  (match recv_timeout (some p.result) MAX_CONNECT_TIME with
   | .ok conn_result => conn_result
   | .error _ => .error ()
  , p.duration)

/-- The backend selector. -/
inductive Store where
  | Online : RedisAuth → Store
  | Offline : OfflineAuth → Store
deriving DecidableEq, Repr

/-- The token service: active backend, remote address, and the count of
calls served by the fallback since the remote store was last reachable. -/
structure AuthService where
  store : Store
  addr : Str
  misses : Nat
deriving DecidableEq, Repr

/-- AuthService::new: probe once; on success start Online, else Offline. -/
def AuthService.new (addr : Str) (p : Probe) : AuthService :=
  let store := match (try_connect p).1 with
    | .ok redis_cache => Store.Online (RedisAuth.new redis_cache)
    | .error _ => Store.Offline OfflineAuth.new
  { store := store, addr := addr, misses := 0 }

/-- migrate_to_online from src/auth/auth.rs: copy every entry of the
in-memory registry into the remote store through one set_multiple call with
symmetric false and overwrite true, each entry keyed by the user id string
with the token string as value and expiry 120 seconds. -/
def migrate_to_online (offline : OfflineAuth) (ctx : CacheCtx) (kv : Kv) :
    Except Unit Unit × Kv :=
  let entries := offline.tokens.map
    (fun entry => Entry.mk (natToStr entry.1) (Uuid.toStr entry.2) 120)
  match Cache.set_multiple ctx kv entries false true with
  | (.ok _, kv') => (.ok (), kv')
  | (.error _, kv') => (.error (), kv')

/-- Per-call outcome environment for one AuthService call: the fresh tokens
drawn by the up-to-two Uuid::new_v4 calls, the connection probe behaviour,
and the cache outcomes for the migration write and for the main backend
operation of the call. -/
structure CallEnv where
  fresh : Uuid
  fresh2 : Uuid
  probe : Probe
  migrateCtx : CacheCtx
  opCtx : CacheCtx
deriving DecidableEq, Repr

/-- Result of AuthService::maybe_reconnect, instrumented with whether
try_connect was invoked during the call. -/
structure ReconOut where
  service : AuthService
  kv : Kv
  attempted : Bool
deriving DecidableEq, Repr

/-- AuthService::maybe_reconnect: return early unless the miss counter is a
multiple of RECONNECT_FREQUENCY; then, when Offline, try to connect, and on
success migrate; only when migration succeeded switch to Online and zero the
miss counter.  On a failed connection or failed migration everything is left
unchanged. -/
def AuthService.maybe_reconnect (self : AuthService) (env : CallEnv) (kv : Kv) : ReconOut :=
  if self.misses % RECONNECT_FREQUENCY ≠ 0 then { service := self, kv := kv, attempted := false }
  else
    match self.store with
    | .Offline offline =>
      match (try_connect env.probe).1 with
      | .ok redis_cache =>
        match migrate_to_online offline env.migrateCtx kv with
        | (.error _, kv') => { service := self, kv := kv', attempted := true }
        | (.ok _, kv') =>
          { service := { self with store := .Online (RedisAuth.new redis_cache), misses := 0 },
            kv := kv', attempted := true }
      | .error _ => { service := self, kv := kv, attempted := true }
    | .Online _ => { service := self, kv := kv, attempted := false }

/-- Result of one AuthService call, instrumented with whether a reconnect
attempt (a try_connect invocation) happened during the call. -/
structure StepOut (α : Type) where
  result : Except Unit α
  service : AuthService
  kv : Kv
  attempted : Bool
deriving DecidableEq, Repr

/-- The reconnect guard at the top of generate_user_token and validate: the
reconnect check runs only while the active backend is the in-memory store. -/
def reconnectPhase (self : AuthService) (env : CallEnv) (kv : Kv) : ReconOut :=
  match self.store with
  | .Offline _ => self.maybe_reconnect env kv
  | .Online _ => { service := self, kv := kv, attempted := false }

/-- The backend dispatch of generate_user_token after the reconnect guard. -/
def generate_serve (pre : ReconOut) (env : CallEnv) (user_id : Nat) (username : Str) :
    StepOut Uuid :=
  match pre.service.store with
  | .Offline store =>
    let r := store.generate_for_user env.fresh user_id
    { result := .ok r.1,
      service := { pre.service with store := .Offline r.2, misses := pre.service.misses + 1 },
      kv := pre.kv, attempted := pre.attempted }
  | .Online redis =>
    match redis.generate_for_user env.fresh user_id username env.opCtx pre.kv with
    | (.ok stored_uuid, kv2) =>
      { result := .ok stored_uuid, service := pre.service, kv := kv2,
        attempted := pre.attempted }
    | (.error _, kv2) =>
      let offline := OfflineAuth.new
      let r := offline.generate_for_user env.fresh2 user_id
      { result := .ok r.1,
        service := { pre.service with store := .Offline r.2, misses := 1 },
        kv := kv2, attempted := pre.attempted }

/-- AuthService::generate_user_token: when Offline run the reconnect check
first; then serve from the active backend.  An Offline-served call counts a
miss and always succeeds; an Online-served call that fails demotes to a
fresh Offline store, sets the miss counter to one, and serves the issuance
from that store, so the call still returns a token. -/
def AuthService.generate_user_token (self : AuthService) (env : CallEnv) (kv : Kv)
    (user_id : Nat) (username : Str) : StepOut Uuid :=
  generate_serve (reconnectPhase self env kv) env user_id username

/-- The backend dispatch of validate after parsing and the reconnect guard. -/
def validate_serve (pre : ReconOut) (env : CallEnv) (user_id : Nat) (username : Str)
    (token : Uuid) : StepOut Bool :=
  match pre.service.store with
  | .Offline store =>
    { result := .ok (store.validate user_id token),
      service := { pre.service with misses := pre.service.misses + 1 },
      kv := pre.kv, attempted := pre.attempted }
  | .Online redis =>
    match redis.validate_username username token env.opCtx pre.kv with
    | .ok is_valid =>
      { result := .ok is_valid, service := pre.service, kv := pre.kv,
        attempted := pre.attempted }
    | .error _ =>
      { result := .error (),
        service := { pre.service with store := .Offline OfflineAuth.new, misses := 1 },
        kv := pre.kv, attempted := pre.attempted }

/-- AuthService::validate: parse the token string first and fail fast on a
malformed token; when Offline run the reconnect check; an Offline-served
call counts a miss and answers from the registry; an Online-served call
whose backend read fails demotes to a fresh Offline store, sets the miss
counter to one, and returns the unit error for this call. -/
def AuthService.validate (self : AuthService) (env : CallEnv) (kv : Kv)
    (user_id : Nat) (username : Str) (token_str : Str) : StepOut Bool :=
  match Uuid.parseStr token_str with
  | none => { result := .error (), service := self, kv := kv, attempted := false }
  | some token => validate_serve (reconnectPhase self env kv) env user_id username token

/- ----------------------------------------------------------------- -/
/- Concrete fixtures used to evaluate the model at specific inputs.   -/
/- ----------------------------------------------------------------- -/

/-- Cache outcomes with connection, pipeline and reads all succeeding. -/
def cacheOk : CacheCtx := { connOk := true, queryOk := true, getErr := none }

/-- Cache outcomes where obtaining a connection fails. -/
def cacheConnFail : CacheCtx := { connOk := false, queryOk := true, getErr := none }

/-- A probe whose Cache::new succeeds immediately. -/
def probeOk : Probe := { result := .ok Cache.mk, duration := 0 }

/-- A probe whose Cache::new fails immediately. -/
def probeFail : Probe := { result := .error (), duration := 0 }

/-- A service whose active backend is the remote store. -/
def sOnline : AuthService :=
  { store := .Online (RedisAuth.new Cache.mk), addr := [], misses := 0 }

/-- A service whose active backend is the in-memory store, empty registry. -/
def sOffline : AuthService :=
  { store := .Offline OfflineAuth.new, addr := [], misses := 0 }

/-- Call environment for a healthy remote backend, issuing a given token. -/
def envRemoteOk (fresh : Uuid) : CallEnv :=
  { fresh := fresh, fresh2 := 0, probe := probeFail, migrateCtx := cacheOk, opCtx := cacheOk }

/-- Call environment where the remote backend operation cannot connect. -/
def envRemoteDown (fresh : Uuid) : CallEnv :=
  { fresh := fresh, fresh2 := fresh + 100, probe := probeFail, migrateCtx := cacheOk,
    opCtx := cacheConnFail }

/-- A username without a bang character. -/
def uname0 : Str := ['a', 'l', 'i', 'c', 'e']

/-- A username containing a bang character, accepted at registration (the
API layer only rejects the empty username). -/
def unameBang : Str := ['a', '!', 'b']

/- ----------------------------------------------------------------- -/
/- Supporting lemmas.                                                 -/
/- ----------------------------------------------------------------- -/

theorem digitChar_lt_ten (d : Nat) (h : d < 10) : charDigit? (digitChar d) = some d := by
  interval_cases d <;> decide

theorem digitChar_ne_bang (d : Nat) (h : d < 10) : digitChar d ≠ '!' := by
  interval_cases d <;> decide

theorem digitChar_ne_plus (d : Nat) (h : d < 10) : digitChar d ≠ '+' := by
  interval_cases d <;> decide

theorem natDigitsGo_lt_ten (fuel n : Nat) (h : n ≤ fuel) :
    ∀ d ∈ natDigitsGo fuel n, d < 10 := by
  induction fuel generalizing n with
  | zero =>
    intro d hd
    simp only [natDigitsGo, List.mem_singleton] at hd
    omega
  | succ fuel ih =>
    intro d hd
    simp only [natDigitsGo] at hd
    by_cases hn : n < 10
    · simp only [if_pos hn, List.mem_singleton] at hd
      omega
    · simp only [if_neg hn, List.mem_append, List.mem_singleton] at hd
      rcases hd with hd | hd
      · exact ih (n / 10) (by omega) d hd
      · omega

theorem natDigits_lt_ten (n : Nat) : ∀ d ∈ natDigits n, d < 10 :=
  natDigitsGo_lt_ten n n (Nat.le_refl n)

theorem natDigitsGo_ne_nil (fuel n : Nat) : natDigitsGo fuel n ≠ [] := by
  cases fuel with
  | zero => simp [natDigitsGo]
  | succ fuel =>
    simp only [natDigitsGo]
    by_cases hn : n < 10
    · simp [if_pos hn]
    · simp [if_neg hn]

theorem natDigits_ne_nil (n : Nat) : natDigits n ≠ [] := natDigitsGo_ne_nil n n

theorem digitsVal_append_single (l : List Nat) (d : Nat) :
    digitsVal (l ++ [d]) = digitsVal l * 10 + d := by
  simp [digitsVal, List.foldl_append]

theorem natDigitsGo_val (fuel n : Nat) (h : n ≤ fuel) :
    digitsVal (natDigitsGo fuel n) = n := by
  induction fuel generalizing n with
  | zero =>
    have : n = 0 := by omega
    subst this
    decide
  | succ fuel ih =>
    simp only [natDigitsGo]
    by_cases hn : n < 10
    · simp [if_pos hn, digitsVal]
    · rw [if_neg hn, digitsVal_append_single, ih (n / 10) (by omega)]
      omega

theorem natDigits_val (n : Nat) : digitsVal (natDigits n) = n :=
  natDigitsGo_val n n (Nat.le_refl n)

theorem digitsVal?_foldl (l : List Nat) (a : Nat) (h : ∀ d ∈ l, d < 10) :
    (l.map digitChar).foldl
        (fun acc c => acc.bind (fun a => (charDigit? c).map (fun d => a * 10 + d)))
        (some a)
      = some (l.foldl (fun a d => a * 10 + d) a) := by
  induction l generalizing a with
  | nil => rfl
  | cons d l ih =>
    have hd : d < 10 := h d (List.mem_cons_self d l)
    simp only [List.map_cons, List.foldl_cons, digitChar_lt_ten d hd, Option.bind_some,
      Option.map_some]
    exact ih (a * 10 + d) (fun x hx => h x (List.mem_cons_of_mem d hx))

theorem digitsVal?_natToStr (n : Nat) : digitsVal? (natToStr n) = some n := by
  have hmap : natToStr n ≠ [] := by
    simp only [natToStr, ne_eq, List.map_eq_nil_iff]
    exact natDigits_ne_nil n
  have key : (natToStr n).foldl
      (fun acc c => acc.bind (fun a => (charDigit? c).map (fun d => a * 10 + d)))
      (some 0) = some n := by
    unfold natToStr
    rw [digitsVal?_foldl (natDigits n) 0 (natDigits_lt_ten n)]
    rw [show (natDigits n).foldl (fun a d => a * 10 + d) 0 = digitsVal (natDigits n) from rfl]
    rw [natDigits_val n]
  cases hs : natToStr n with
  | nil => exact absurd hs hmap
  | cons c cs =>
    show (c :: cs).foldl
      (fun acc c => acc.bind (fun a => (charDigit? c).map (fun d => a * 10 + d)))
      (some 0) = some n
    rw [← hs]
    exact key

theorem natToStr_head_ne_plus (n : Nat) : (natToStr n).head? ≠ some '+' := by
  unfold natToStr
  cases hs : natDigits n with
  | nil => exact absurd hs (natDigits_ne_nil n)
  | cons d ds =>
    have hd : d < 10 := natDigits_lt_ten n d (hs ▸ List.mem_cons_self d ds)
    simp only [List.map_cons, List.head?_cons, ne_eq, Option.some.injEq]
    exact digitChar_ne_plus d hd

theorem parseU64_natToStr (n : Nat) (h : n < 2 ^ 64) : parseU64 (natToStr n) = some n := by
  unfold parseU64
  rw [if_neg (natToStr_head_ne_plus n)]
  simp only [digitsVal?_natToStr n, if_pos h]

theorem bang_not_mem_natToStr (n : Nat) : '!' ∉ natToStr n := by
  unfold natToStr
  intro hmem
  rcases List.mem_map.mp hmem with ⟨d, hd, hchar⟩
  exact digitChar_ne_bang d (natDigits_lt_ten n d hd) hchar

theorem natToStr_ne_nil (n : Nat) : natToStr n ≠ [] := by
  simp only [natToStr, ne_eq, List.map_eq_nil_iff]
  exact natDigits_ne_nil n

theorem natToStr_injective (m n : Nat) (h : natToStr m = natToStr n) : m = n := by
  have hm := digitsVal?_natToStr m
  rw [h, digitsVal?_natToStr n] at hm
  exact (Option.some.injEq _ _ ▸ hm).symm

theorem splitOnce_append_bang (l r : Str) (h : '!' ∉ l) :
    splitOnce (l ++ '!' :: r) '!' = some (l, r) := by
  induction l with
  | nil => simp [splitOnce]
  | cons c cs ih =>
    have hc : c ≠ '!' := fun hc => h (hc ▸ List.mem_cons_self c cs)
    have hcs : '!' ∉ cs := fun hm => h (List.mem_cons_of_mem c hm)
    simp only [List.cons_append, splitOnce, if_neg hc, List.append_eq, ih hcs]

theorem Uuid.parseStr_toStr (u : Uuid) : Uuid.parseStr (Uuid.toStr u) = some u :=
  digitsVal?_natToStr u

theorem kvGet_kvRemove (kv : Kv) (k k' : Str) :
    kvGet (kvRemove kv k) k' = if k' = k then none else kvGet kv k' := by
  induction kv with
  | nil => simp [kvRemove, kvGet]
  | cons e rest ih =>
    by_cases he : e.1 = k
    · by_cases hk : k' = k
      · subst hk
        simp [kvRemove, kvGet, he, ih]
      · have hkk : ¬ (k = k') := fun h => hk h.symm
        simp [kvRemove, kvGet, he, hk, hkk, ih]
    · by_cases hek : e.1 = k'
      · have hk : ¬ k' = k := fun h => he (hek.trans h)
        simp [kvRemove, kvGet, he, hek, hk]
      · simp [kvRemove, kvGet, he, hek, ih]

theorem kvGet_kvSet (kv : Kv) (k v : Str) (e : Nat) (k' : Str) :
    kvGet (kvSet kv k v e) k' = if k' = k then some v else kvGet kv k' := by
  simp only [kvSet, kvGet]
  by_cases hk : k = k'
  · simp [if_pos hk, hk]
  · rw [if_neg hk, kvGet_kvRemove]
    by_cases hk' : k' = k
    · exact absurd hk'.symm hk
    · simp [if_neg hk']

theorem tokensGet_tokensInsert_self (m : TokenRegistry) (k : Nat) (v : Uuid) :
    tokensGet (tokensInsert m k v) k = some v := by
  simp [tokensInsert, tokensGet]

theorem tokensInsert_filter_self (m : TokenRegistry) (k : Nat) (v : Uuid) :
    (tokensInsert m k v).filter (fun e => decide (e.1 = k)) = [(k, v)] := by
  have hff : ∀ e : Nat × Uuid, (decide (e.1 ≠ k) && decide (e.1 = k)) = false := by
    intro e
    by_cases h : e.1 = k <;> simp [h]
  have hff' : ∀ e : Nat × Uuid, (decide (e.1 = k) && decide (e.1 ≠ k)) = false := by
    intro e
    by_cases h : e.1 = k <;> simp [h]
  simp [tokensInsert, List.filter_filter, hff, hff']

theorem try_connect_fst (p : Probe) : (try_connect p).1 = p.result := rfl

theorem try_connect_snd (p : Probe) : (try_connect p).2 = p.duration := rfl

theorem maybe_reconnect_freq_miss (s : AuthService) (env : CallEnv) (kv : Kv)
    (h : s.misses % RECONNECT_FREQUENCY ≠ 0) :
    s.maybe_reconnect env kv = { service := s, kv := kv, attempted := false } := by
  unfold AuthService.maybe_reconnect
  rw [if_pos h]

theorem maybe_reconnect_online (s : AuthService) (r : RedisAuth) (env : CallEnv) (kv : Kv)
    (h : s.store = .Online r) :
    s.maybe_reconnect env kv = { service := s, kv := kv, attempted := false } := by
  unfold AuthService.maybe_reconnect
  by_cases hf : s.misses % RECONNECT_FREQUENCY ≠ 0
  · rw [if_pos hf]
  · rw [if_neg hf, h]

theorem maybe_reconnect_offline_connfail (s : AuthService) (o : OfflineAuth)
    (env : CallEnv) (kv : Kv) (hs : s.store = .Offline o)
    (hf : s.misses % RECONNECT_FREQUENCY = 0) (hp : env.probe.result = .error ()) :
    s.maybe_reconnect env kv = { service := s, kv := kv, attempted := true } := by
  unfold AuthService.maybe_reconnect
  rw [if_neg (by simp [hf]), hs, try_connect_fst, hp]

theorem maybe_reconnect_offline_migfail (s : AuthService) (o : OfflineAuth)
    (env : CallEnv) (kv : Kv) (c : Cache) (hs : s.store = .Offline o)
    (hf : s.misses % RECONNECT_FREQUENCY = 0) (hp : env.probe.result = .ok c)
    (hm : (migrate_to_online o env.migrateCtx kv).1 = .error ()) :
    s.maybe_reconnect env kv =
      { service := s, kv := (migrate_to_online o env.migrateCtx kv).2, attempted := true } := by
  unfold AuthService.maybe_reconnect
  rw [if_neg (by simp [hf]), hs, try_connect_fst, hp]
  rcases hmig : migrate_to_online o env.migrateCtx kv with ⟨res, kv2⟩
  rw [hmig] at hm
  simp only at hm
  subst hm
  dsimp only
  rw [hmig]

theorem maybe_reconnect_offline_migok (s : AuthService) (o : OfflineAuth)
    (env : CallEnv) (kv : Kv) (c : Cache) (hs : s.store = .Offline o)
    (hf : s.misses % RECONNECT_FREQUENCY = 0) (hp : env.probe.result = .ok c)
    (hm : (migrate_to_online o env.migrateCtx kv).1 = .ok ()) :
    s.maybe_reconnect env kv =
      { service := { s with store := .Online (RedisAuth.new c), misses := 0 },
        kv := (migrate_to_online o env.migrateCtx kv).2, attempted := true } := by
  unfold AuthService.maybe_reconnect
  rw [if_neg (by simp [hf]), hs, try_connect_fst, hp]
  rcases hmig : migrate_to_online o env.migrateCtx kv with ⟨res, kv2⟩
  rw [hmig] at hm
  simp only at hm
  subst hm
  dsimp only
  rw [hmig]

theorem reconnectPhase_online (s : AuthService) (r : RedisAuth) (env : CallEnv) (kv : Kv)
    (h : s.store = .Online r) :
    reconnectPhase s env kv = { service := s, kv := kv, attempted := false } := by
  unfold reconnectPhase
  rw [h]

theorem reconnectPhase_offline (s : AuthService) (o : OfflineAuth) (env : CallEnv) (kv : Kv)
    (h : s.store = .Offline o) :
    reconnectPhase s env kv = s.maybe_reconnect env kv := by
  unfold reconnectPhase
  rw [h]

theorem generate_serve_offline (pre : ReconOut) (env : CallEnv) (user_id : Nat)
    (username : Str) (o : OfflineAuth) (h : pre.service.store = .Offline o) :
    generate_serve pre env user_id username =
      { result := .ok env.fresh,
        service := { pre.service with
          store := .Offline { tokens := tokensInsert o.tokens user_id env.fresh },
          misses := pre.service.misses + 1 },
        kv := pre.kv, attempted := pre.attempted } := by
  unfold generate_serve
  rw [h]
  rfl

theorem generate_serve_online_ok (pre : ReconOut) (env : CallEnv) (user_id : Nat)
    (username : Str) (r : RedisAuth) (u : Uuid) (kv2 : Kv)
    (h : pre.service.store = .Online r)
    (hg : RedisAuth.generate_for_user r env.fresh user_id username env.opCtx pre.kv
      = (.ok u, kv2)) :
    generate_serve pre env user_id username =
      { result := .ok u, service := pre.service, kv := kv2, attempted := pre.attempted } := by
  unfold generate_serve
  rw [h]
  dsimp only
  rw [hg]

theorem generate_serve_online_err (pre : ReconOut) (env : CallEnv) (user_id : Nat)
    (username : Str) (r : RedisAuth) (kv2 : Kv)
    (h : pre.service.store = .Online r)
    (hg : RedisAuth.generate_for_user r env.fresh user_id username env.opCtx pre.kv
      = (.error (), kv2)) :
    generate_serve pre env user_id username =
      { result := .ok env.fresh2,
        service := { pre.service with
          store := .Offline { tokens := [(user_id, env.fresh2)] }, misses := 1 },
        kv := kv2, attempted := pre.attempted } := by
  unfold generate_serve
  rw [h]
  dsimp only
  rw [hg]
  rfl

theorem validate_serve_offline (pre : ReconOut) (env : CallEnv) (user_id : Nat)
    (username : Str) (token : Uuid) (o : OfflineAuth) (h : pre.service.store = .Offline o) :
    validate_serve pre env user_id username token =
      { result := .ok (o.validate user_id token),
        service := { pre.service with misses := pre.service.misses + 1 },
        kv := pre.kv, attempted := pre.attempted } := by
  unfold validate_serve
  rw [h]

theorem validate_serve_online_ok (pre : ReconOut) (env : CallEnv) (user_id : Nat)
    (username : Str) (token : Uuid) (r : RedisAuth) (b : Bool)
    (h : pre.service.store = .Online r)
    (hv : RedisAuth.validate_username r username token env.opCtx pre.kv = .ok b) :
    validate_serve pre env user_id username token =
      { result := .ok b, service := pre.service, kv := pre.kv,
        attempted := pre.attempted } := by
  unfold validate_serve
  rw [h]
  dsimp only
  rw [hv]

theorem validate_serve_online_err (pre : ReconOut) (env : CallEnv) (user_id : Nat)
    (username : Str) (token : Uuid) (r : RedisAuth)
    (h : pre.service.store = .Online r)
    (hv : RedisAuth.validate_username r username token env.opCtx pre.kv = .error ()) :
    validate_serve pre env user_id username token =
      { result := .error (),
        service := { pre.service with store := .Offline OfflineAuth.new, misses := 1 },
        kv := pre.kv, attempted := pre.attempted } := by
  unfold validate_serve
  rw [h]
  dsimp only
  rw [hv]

theorem validate_eq_of_parse_none (s : AuthService) (env : CallEnv) (kv : Kv)
    (user_id : Nat) (username token_str : Str) (h : Uuid.parseStr token_str = none) :
    s.validate env kv user_id username token_str =
      { result := .error (), service := s, kv := kv, attempted := false } := by
  unfold AuthService.validate
  rw [h]

theorem validate_eq_of_parse_some (s : AuthService) (env : CallEnv) (kv : Kv)
    (user_id : Nat) (username token_str : Str) (token : Uuid)
    (h : Uuid.parseStr token_str = some token) :
    s.validate env kv user_id username token_str =
      validate_serve (reconnectPhase s env kv) env user_id username token := by
  unfold AuthService.validate
  rw [h]

theorem set_multiple_fst (ctx : CacheCtx) (kv : Kv) (entries : List Entry)
    (symmetric overwrite : Bool) :
    (Cache.set_multiple ctx kv entries symmetric overwrite).1 =
      if ctx.connOk = true then Except.ok () else Except.error () := by
  cases hc : ctx.connOk <;> simp [Cache.set_multiple, hc]

theorem set_multiple_snd_all_ok (ctx : CacheCtx) (kv : Kv) (entries : List Entry)
    (symmetric overwrite : Bool) (h1 : ctx.connOk = true) (h2 : ctx.queryOk = true) :
    (Cache.set_multiple ctx kv entries symmetric overwrite).2 =
      (entries.flatMap (fun e => add_to_pipe e symmetric overwrite)).foldl applyWrite kv := by
  simp [Cache.set_multiple, h1, h2]

theorem generate_for_user_conn_fail (r : RedisAuth) (fresh : Uuid) (user_id : Nat)
    (username : Str) (ctx : CacheCtx) (kv : Kv) (h : ctx.connOk = false) :
    RedisAuth.generate_for_user r fresh user_id username ctx kv = (.error (), kv) := by
  unfold RedisAuth.generate_for_user
  simp [Cache.set_multiple, h]

theorem generate_for_user_all_ok (r : RedisAuth) (fresh : Uuid) (user_id : Nat)
    (username : Str) (ctx : CacheCtx) (kv : Kv)
    (h1 : ctx.connOk = true) (h2 : ctx.queryOk = true) :
    RedisAuth.generate_for_user r fresh user_id username ctx kv =
      (.ok fresh,
       kvSet (kvSet kv (Uuid.toStr fresh) (username ++ '!' :: natToStr user_id) DAY_IN_SECONDS)
         username (Uuid.toStr fresh ++ '!' :: natToStr user_id) DAY_IN_SECONDS) := by
  unfold RedisAuth.generate_for_user
  simp [Cache.set_multiple, h1, h2, add_to_pipe, create_token_to_user_entry,
    create_user_to_token_entry, Entry.new, applyWrite]

theorem validate_username_conn_fail (r : RedisAuth) (username : Str) (token : Uuid)
    (ctx : CacheCtx) (kv : Kv) (h : ctx.connOk = false) :
    RedisAuth.validate_username r username token ctx kv = .error () := by
  unfold RedisAuth.validate_username
  simp [Cache.get, h]

theorem validate_username_found (r : RedisAuth) (username : Str) (token : Uuid)
    (ctx : CacheCtx) (kv : Kv) (value : Str)
    (h1 : ctx.connOk = true) (h2 : ctx.getErr = none)
    (hget : kvGet kv (Uuid.toStr token) = some value) :
    RedisAuth.validate_username r username token ctx kv =
      (match separate_token_result value with
       | .error _ => .error ()
       | .ok (stored_username, _) => .ok (stored_username == username)) := by
  unfold RedisAuth.validate_username
  simp only [Cache.get, h1, h2, hget]
  rfl

theorem separate_token_result_packed (l : Str) (id : Nat)
    (hl : '!' ∉ l) (hne : l ≠ []) (hid : id < 2 ^ 64) :
    separate_token_result (l ++ '!' :: natToStr id) = .ok (l, id) := by
  unfold separate_token_result
  rw [splitOnce_append_bang l (natToStr id) hl]
  have he1 : l.isEmpty = false := by simp [List.isEmpty_iff, hne]
  have he2 : (natToStr id).isEmpty = false := by simp [List.isEmpty_iff, natToStr_ne_nil id]
  have he3 : (natToStr id).contains '!' = false := by simpa using bang_not_mem_natToStr id
  simp only [he1, he2, he3, Bool.or_self, Bool.or_false, if_neg Bool.false_ne_true,
    parseU64_natToStr id hid]

theorem flatMap_add_to_pipe_fwd (entries : List Entry) :
    entries.flatMap (fun e => add_to_pipe e false true) =
      entries.map (fun e => RWrite.setEx e.key e.value e.expiry_sec) := by
  induction entries with
  | nil => rfl
  | cons e es ih =>
    rw [List.flatMap_cons, ih, List.map_cons]
    rfl

theorem migrate_to_online_eq (offline : OfflineAuth) (ctx : CacheCtx) (kv : Kv) :
    migrate_to_online offline ctx kv =
      (if ctx.connOk = true then Except.ok () else Except.error (),
       if ctx.connOk = true ∧ ctx.queryOk = true then
         (offline.tokens.map
           (fun e => RWrite.setEx (natToStr e.1) (Uuid.toStr e.2) 120)).foldl applyWrite kv
       else kv) := by
  cases hc : ctx.connOk with
  | false => simp [migrate_to_online, Cache.set_multiple, hc]
  | true =>
    cases hq : ctx.queryOk with
    | false => simp [migrate_to_online, Cache.set_multiple, hc, hq]
    | true =>
      simp only [migrate_to_online, Cache.set_multiple, hc, hq, Bool.true_eq_false,
        if_neg (by decide : ¬ (true = false)), if_pos rfl, flatMap_add_to_pipe_fwd,
        List.map_map, if_pos (by decide : true = true ∧ true = true)]
      rfl

theorem maybe_reconnect_attempted_iff (s : AuthService) (env : CallEnv) (kv : Kv) :
    (s.maybe_reconnect env kv).attempted = true ↔
      ((∃ o, s.store = .Offline o) ∧ s.misses % RECONNECT_FREQUENCY = 0) := by
  by_cases hf : s.misses % RECONNECT_FREQUENCY = 0
  · cases hst : s.store with
    | Online r =>
      rw [maybe_reconnect_online s r env kv hst]
      simp [hst, hf]
    | Offline o =>
      cases hp : env.probe.result with
      | error e =>
        cases e
        rw [maybe_reconnect_offline_connfail s o env kv hst hf hp]
        simp [hst, hf]
      | ok c =>
        rcases hmig : migrate_to_online o env.migrateCtx kv with ⟨mres, mkv⟩
        cases mres with
        | error e =>
          cases e
          have hm : (migrate_to_online o env.migrateCtx kv).1 = .error () := by rw [hmig]
          rw [maybe_reconnect_offline_migfail s o env kv c hst hf hp hm]
          simp [hst, hf]
        | ok u =>
          cases u
          have hm : (migrate_to_online o env.migrateCtx kv).1 = .ok () := by rw [hmig]
          rw [maybe_reconnect_offline_migok s o env kv c hst hf hp hm]
          simp [hst, hf]
  · rw [maybe_reconnect_freq_miss s env kv hf]
    simp [hf]

theorem reconnectPhase_attempted_iff (s : AuthService) (env : CallEnv) (kv : Kv) :
    (reconnectPhase s env kv).attempted = true ↔
      ((∃ o, s.store = .Offline o) ∧ s.misses % RECONNECT_FREQUENCY = 0) := by
  cases hst : s.store with
  | Online r =>
    rw [reconnectPhase_online s r env kv hst]
    simp [hst]
  | Offline o =>
    rw [reconnectPhase_offline s o env kv hst]
    simp [maybe_reconnect_attempted_iff, hst]

theorem generate_serve_attempted (pre : ReconOut) (env : CallEnv) (user_id : Nat)
    (username : Str) :
    (generate_serve pre env user_id username).attempted = pre.attempted := by
  cases hst : pre.service.store with
  | Offline o => rw [generate_serve_offline pre env user_id username o hst]
  | Online r =>
    rcases hg : RedisAuth.generate_for_user r env.fresh user_id username env.opCtx pre.kv
      with ⟨res, kv2⟩
    cases res with
    | ok u => rw [generate_serve_online_ok pre env user_id username r u kv2 hst hg]
    | error e =>
      cases e
      rw [generate_serve_online_err pre env user_id username r kv2 hst hg]

theorem validate_serve_attempted (pre : ReconOut) (env : CallEnv) (user_id : Nat)
    (username : Str) (token : Uuid) :
    (validate_serve pre env user_id username token).attempted = pre.attempted := by
  cases hst : pre.service.store with
  | Offline o => rw [validate_serve_offline pre env user_id username token o hst]
  | Online r =>
    cases hv : RedisAuth.validate_username r username token env.opCtx pre.kv with
    | ok b => rw [validate_serve_online_ok pre env user_id username token r b hst hv]
    | error e =>
      cases e
      rw [validate_serve_online_err pre env user_id username token r hst hv]

theorem maybe_reconnect_offline_keeps_service (s : AuthService) (env : CallEnv) (kv : Kv)
    (o o' : OfflineAuth) (hs : s.store = .Offline o)
    (h2 : (s.maybe_reconnect env kv).service.store = .Offline o') :
    (s.maybe_reconnect env kv).service = s := by
  by_cases hf : s.misses % RECONNECT_FREQUENCY = 0
  · cases hp : env.probe.result with
    | error e =>
      cases e
      rw [maybe_reconnect_offline_connfail s o env kv hs hf hp]
    | ok c =>
      rcases hmig : migrate_to_online o env.migrateCtx kv with ⟨mres, mkv⟩
      cases mres with
      | error e =>
        cases e
        have hm : (migrate_to_online o env.migrateCtx kv).1 = .error () := by rw [hmig]
        rw [maybe_reconnect_offline_migfail s o env kv c hs hf hp hm]
      | ok u =>
        cases u
        have hm : (migrate_to_online o env.migrateCtx kv).1 = .ok () := by rw [hmig]
        rw [maybe_reconnect_offline_migok s o env kv c hs hf hp hm] at h2
        exact absurd h2 (by simp)
  · rw [maybe_reconnect_freq_miss s env kv hf]

theorem maybe_reconnect_probe_fail_state (s : AuthService) (env : CallEnv) (kv : Kv)
    (o : OfflineAuth) (hs : s.store = .Offline o) (hp : env.probe.result = .error ()) :
    (s.maybe_reconnect env kv).service = s ∧ (s.maybe_reconnect env kv).kv = kv := by
  by_cases hf : s.misses % RECONNECT_FREQUENCY = 0
  · rw [maybe_reconnect_offline_connfail s o env kv hs hf hp]
    exact ⟨rfl, rfl⟩
  · rw [maybe_reconnect_freq_miss s env kv hf]
    exact ⟨rfl, rfl⟩

theorem generate_offline_probe_fail (s : AuthService) (o : OfflineAuth) (env : CallEnv)
    (kv : Kv) (user_id : Nat) (username : Str)
    (hs : s.store = .Offline o) (hp : env.probe.result = .error ()) :
    s.generate_user_token env kv user_id username =
      { result := .ok env.fresh,
        service := { s with
          store := .Offline { tokens := tokensInsert o.tokens user_id env.fresh },
          misses := s.misses + 1 },
        kv := kv,
        attempted := (s.maybe_reconnect env kv).attempted } := by
  have h1 := maybe_reconnect_probe_fail_state s env kv o hs hp
  show generate_serve (reconnectPhase s env kv) env user_id username = _
  rw [reconnectPhase_offline s o env kv hs]
  rw [generate_serve_offline _ env user_id username o (by rw [h1.1]; exact hs)]
  rw [h1.1, h1.2]

theorem validate_offline_probe_fail (s : AuthService) (o : OfflineAuth) (env : CallEnv)
    (kv : Kv) (user_id : Nat) (username : Str) (token : Uuid)
    (hs : s.store = .Offline o) (hp : env.probe.result = .error ()) :
    s.validate env kv user_id username (Uuid.toStr token) =
      { result := .ok (o.validate user_id token),
        service := { s with misses := s.misses + 1 },
        kv := kv,
        attempted := (s.maybe_reconnect env kv).attempted } := by
  have h1 := maybe_reconnect_probe_fail_state s env kv o hs hp
  rw [validate_eq_of_parse_some s env kv user_id username (Uuid.toStr token) token
    (Uuid.parseStr_toStr token)]
  rw [reconnectPhase_offline s o env kv hs]
  rw [validate_serve_offline _ env user_id username token o (by rw [h1.1]; exact hs)]
  rw [h1.1, h1.2]

theorem OfflineAuth.validate_last_insert (m : TokenRegistry) (k : Nat) (v t : Uuid) :
    OfflineAuth.validate { tokens := tokensInsert m k v } k t = (v == t) := by
  unfold OfflineAuth.validate
  rw [tokensGet_tokensInsert_self]

theorem validate_username_after_issue (r : RedisAuth) (username : Str) (fresh : Uuid)
    (user_id : Nat) (ctx : CacheCtx) (kv : Kv)
    (hc : ctx.connOk = true) (hg : ctx.getErr = none)
    (hid : user_id < 2 ^ 64) (hne : username ≠ []) (hbang : '!' ∉ username) :
    RedisAuth.validate_username r username fresh ctx
      (kvSet (kvSet kv (Uuid.toStr fresh) (username ++ '!' :: natToStr user_id)
          DAY_IN_SECONDS)
        username (Uuid.toStr fresh ++ '!' :: natToStr user_id) DAY_IN_SECONDS)
      = .ok true := by
  by_cases hkey : Uuid.toStr fresh = username
  · have hget : kvGet
        (kvSet (kvSet kv (Uuid.toStr fresh) (username ++ '!' :: natToStr user_id)
            DAY_IN_SECONDS)
          username (Uuid.toStr fresh ++ '!' :: natToStr user_id) DAY_IN_SECONDS)
        (Uuid.toStr fresh)
        = some (Uuid.toStr fresh ++ '!' :: natToStr user_id) := by
      rw [kvGet_kvSet, if_pos hkey]
    rw [validate_username_found r username fresh ctx _ _ hc hg hget]
    rw [separate_token_result_packed (Uuid.toStr fresh) user_id
      (bang_not_mem_natToStr fresh) (natToStr_ne_nil fresh) hid]
    rw [hkey]
    simp
  · have hget : kvGet
        (kvSet (kvSet kv (Uuid.toStr fresh) (username ++ '!' :: natToStr user_id)
            DAY_IN_SECONDS)
          username (Uuid.toStr fresh ++ '!' :: natToStr user_id) DAY_IN_SECONDS)
        (Uuid.toStr fresh)
        = some (username ++ '!' :: natToStr user_id) := by
      rw [kvGet_kvSet, if_neg hkey, kvGet_kvSet, if_pos rfl]
    rw [validate_username_found r username fresh ctx _ _ hc hg hget]
    rw [separate_token_result_packed username user_id hbang hne hid]
    simp

/- ----------------------------------------------------------------- -/
/- Claim theorems.                                                    -/
/- ----------------------------------------------------------------- -/

/-- C10: for every cache context, store state, entry list and flag pair,
set_multiple returns Ok exactly when a connection could be obtained,
discarding any failure of the pipelined writes themselves; consequently
remote token issuance errs exactly when the connection could not be
obtained, and migration succeeds exactly when the connection could be
obtained, so a failed pipelined write is never surfaced to the caller. -/
theorem C10_set_multiple_ok_despite_write_failure :
    ∀ (ctx : CacheCtx) (kv : Kv) (entries : List Entry) (symmetric overwrite : Bool),
      ((Cache.set_multiple ctx kv entries symmetric overwrite).1 = .ok ()
        ↔ ctx.connOk = true) ∧
      (∀ (r : RedisAuth) (fresh : Uuid) (user_id : Nat) (username : Str),
        ((RedisAuth.generate_for_user r fresh user_id username ctx kv).1 = .error ()
          ↔ ctx.connOk = false)) ∧
      (∀ offline : OfflineAuth,
        ((migrate_to_online offline ctx kv).1 = .ok () ↔ ctx.connOk = true)) := by
  intro ctx kv entries symmetric overwrite
  refine ⟨?_, ?_, ?_⟩
  · rw [set_multiple_fst]
    cases hc : ctx.connOk <;> simp
  · intro r fresh user_id username
    cases hc : ctx.connOk
    · rw [generate_for_user_conn_fail r fresh user_id username ctx kv hc]
      simp
    · simp [RedisAuth.generate_for_user, Cache.set_multiple, hc]
  · intro offline
    rw [migrate_to_online_eq]
    cases hc : ctx.connOk <;> simp

/-- C8: contrary to the claim, the reconnect probe is not bounded by
MAX_CONNECT_TIME.  thread::scope joins the spawned Cache::new thread before
recv_timeout ever runs, so try_connect blocks its caller for the full
duration of the connection attempt and then returns the connection outcome:
the timeout branch is dead code, and a probe outlasting MAX_CONNECT_TIME
(such as one of duration 10) still blocks the calling path for that long. -/
theorem C8_try_connect_joins_probe_ignoring_timeout :
    (∀ p : Probe, try_connect p = (p.result, p.duration)) ∧
    MAX_CONNECT_TIME <
      (try_connect { result := Except.error (), duration := 10 }).2 :=
  ⟨fun _ => rfl, by decide⟩

/-- C3: generate_user_token always returns a token: for every service state
and environment the result is Ok, and in particular when the active backend
is Remote and the delegated issuance fails (the connection cannot be
obtained), the service demotes to a fresh InMemory store holding exactly the
newly issued token, sets the miss counter to one, and returns that token. -/
theorem C3_generate_user_token_always_succeeds :
    ∀ (s : AuthService) (env : CallEnv) (kv : Kv) (user_id : Nat) (username : Str),
      (∃ u, (s.generate_user_token env kv user_id username).result = .ok u) ∧
      (∀ r : RedisAuth, s.store = .Online r → env.opCtx.connOk = false →
        (s.generate_user_token env kv user_id username).result = .ok env.fresh2 ∧
        (s.generate_user_token env kv user_id username).service.store =
          .Offline { tokens := [(user_id, env.fresh2)] } ∧
        (s.generate_user_token env kv user_id username).service.misses = 1) := by
  intro s env kv user_id username
  constructor
  · unfold AuthService.generate_user_token
    cases hm : (reconnectPhase s env kv).service.store with
    | Offline o =>
      rw [generate_serve_offline _ env user_id username o hm]
      exact ⟨env.fresh, rfl⟩
    | Online r =>
      rcases hg : RedisAuth.generate_for_user r env.fresh user_id username env.opCtx
          (reconnectPhase s env kv).kv with ⟨res, kv2⟩
      cases res with
      | ok u =>
        rw [generate_serve_online_ok _ env user_id username r u kv2 hm hg]
        exact ⟨u, rfl⟩
      | error e =>
        cases e
        rw [generate_serve_online_err _ env user_id username r kv2 hm hg]
        exact ⟨env.fresh2, rfl⟩
  · intro r hs hc
    have hpre := reconnectPhase_online s r env kv hs
    unfold AuthService.generate_user_token
    rw [hpre]
    have hg := generate_for_user_conn_fail r env.fresh user_id username env.opCtx kv hc
    rw [generate_serve_online_err _ env user_id username r kv hs hg]
    exact ⟨rfl, rfl, rfl⟩

/-- Witness for C3 at a concrete input: a service with the remote backend
active whose issuance write cannot connect still returns a token (the second
fresh token of the call) and demotes with the miss counter at one. -/
theorem C3_generate_user_token_always_succeeds_witness :
    (sOnline.generate_user_token (envRemoteDown 7) [] 42 uname0).result
        = .ok ((envRemoteDown 7).fresh2) ∧
    (sOnline.generate_user_token (envRemoteDown 7) [] 42 uname0).service.misses = 1 :=
  ⟨((C3_generate_user_token_always_succeeds sOnline (envRemoteDown 7) [] 42 uname0).2
      (RedisAuth.new Cache.mk) rfl rfl).1,
   ((C3_generate_user_token_always_succeeds sOnline (envRemoteDown 7) [] 42 uname0).2
      (RedisAuth.new Cache.mk) rfl rfl).2.2⟩

/-- C4 counterexample: the claim asserts the malformed-token error is
distinct from the backend-unavailable error, but both validate error paths
return the same unit error value: validating the unparsable empty string and
validating a well-formed token while the remote read cannot connect produce
equal results. -/
theorem C4_cex_error_values_not_distinct :
    (sOnline.validate (envRemoteDown 7) [] 42 uname0 []).result = .error () ∧
    (sOnline.validate (envRemoteDown 7) [] 42 uname0 (Uuid.toStr 7)).result = .error () ∧
    (sOnline.validate (envRemoteDown 7) [] 42 uname0 []).result =
      (sOnline.validate (envRemoteDown 7) [] 42 uname0 (Uuid.toStr 7)).result :=
  ⟨by decide, by decide, by decide⟩

/-- C4 (amended): for every input string that does not parse as a token
(including the empty string), validate returns its error before contacting
any backend — the service state and remote store are unchanged and no
reconnect attempt happens — and never panics; however the error is the unit
value, the same value returned for backend unavailability, so the two error
cases are not distinguishable by the caller. -/
theorem C4_validate_malformed_fails_fast :
    ∀ (s : AuthService) (env : CallEnv) (kv : Kv) (user_id : Nat)
      (username token_str : Str),
      Uuid.parseStr token_str = none →
      s.validate env kv user_id username token_str =
        { result := .error (), service := s, kv := kv, attempted := false } :=
  fun s env kv user_id username token_str h =>
    validate_eq_of_parse_none s env kv user_id username token_str h

/-- Witness for C4 at a concrete input: the empty string does not parse and
validate returns the unit error with nothing else changed. -/
theorem C4_validate_malformed_fails_fast_witness :
    Uuid.parseStr [] = none ∧
    sOffline.validate (envRemoteOk 1) [] 42 uname0 [] =
      { result := .error (), service := sOffline, kv := [], attempted := false } :=
  ⟨rfl, C4_validate_malformed_fails_fast sOffline (envRemoteOk 1) [] 42 uname0 [] rfl⟩

/-- C5: when the active backend is Remote and the backend read of a
well-formed token fails, validate demotes the service to a fresh InMemory
store with the miss counter set to one and returns the error for this call —
in particular it never returns Ok true or Ok false in that situation. -/
theorem C5_validate_remote_read_failure_errors :
    ∀ (s : AuthService) (r : RedisAuth) (env : CallEnv) (kv : Kv) (user_id : Nat)
      (username token_str : Str) (token : Uuid),
      Uuid.parseStr token_str = some token →
      s.store = .Online r →
      RedisAuth.validate_username r username token env.opCtx kv = .error () →
      s.validate env kv user_id username token_str =
        { result := .error (),
          service := { store := .Offline OfflineAuth.new, addr := s.addr, misses := 1 },
          kv := kv, attempted := false } := by
  intro s r env kv user_id username token_str token hp hs hv
  rw [validate_eq_of_parse_some s env kv user_id username token_str token hp,
    reconnectPhase_online s r env kv hs,
    validate_serve_online_err _ env user_id username token r hs hv]

/-- Witness for C5 at a concrete input: with the remote backend active and
the read unable to connect, validating a well-formed token string returns
the error and demotes the service with one miss. -/
theorem C5_validate_remote_read_failure_errors_witness :
    sOnline.validate (envRemoteDown 7) [] 42 uname0 (Uuid.toStr 7) =
      { result := .error (),
        service := { store := .Offline OfflineAuth.new, addr := sOnline.addr, misses := 1 },
        kv := [], attempted := false } :=
  C5_validate_remote_read_failure_errors sOnline (RedisAuth.new Cache.mk)
    (envRemoteDown 7) [] 42 uname0 (Uuid.toStr 7) 7 (by decide) rfl (by decide)

/-- C6 counterexample: the claim asserts migration uses symmetric true, but
a reconnect migration of the single registry entry mapping user 42 to token
7 succeeds, writes the forward user-to-token entry, and writes no reverse
token-keyed entry — while the same entry list passed to set_multiple with
symmetric true does produce the reverse entry. -/
theorem C6_cex_migration_writes_no_reverse_entry :
    (migrate_to_online { tokens := [(42, 7)] } cacheOk []).1 = .ok () ∧
    kvGet (migrate_to_online { tokens := [(42, 7)] } cacheOk []).2 (natToStr 42)
      = some (Uuid.toStr 7) ∧
    kvGet (migrate_to_online { tokens := [(42, 7)] } cacheOk []).2 (Uuid.toStr 7) = none ∧
    kvGet (Cache.set_multiple cacheOk []
        [Entry.mk (natToStr 42) (Uuid.toStr 7) 120] true true).2 (Uuid.toStr 7)
      = some (natToStr 42) :=
  ⟨by decide, by decide, by decide, by decide⟩

/-- C6 (amended): on a successful reconnect, every entry currently held by
the InMemory registry is migrated into Remote via a single pipelined
set_multiple call with symmetric false and overwrite true: one unconditional
forward write per registry entry, keyed by the user id string with the token
string as value and expiry 120 seconds, and no reverse entries. -/
theorem C6_migration_single_pipeline_forward_only :
    ∀ (offline : OfflineAuth) (ctx : CacheCtx) (kv : Kv),
      migrate_to_online offline ctx kv =
        (if ctx.connOk = true then Except.ok () else Except.error (),
         if ctx.connOk = true ∧ ctx.queryOk = true then
           (offline.tokens.map
             (fun e => RWrite.setEx (natToStr e.1) (Uuid.toStr e.2) 120)).foldl
               applyWrite kv
         else kv) :=
  migrate_to_online_eq

/-- C7: starting from the InMemory backend, the reconnect check promotes to
Remote exactly when the frequency condition holds, the connection succeeds
and the migration call succeeds; on promotion the miss counter is reset to
zero and the store state is the migrated one; in every other case the
service is left exactly as it was — still InMemory, miss counter untouched. -/
theorem C7_promote_only_after_migration :
    ∀ (s : AuthService) (o : OfflineAuth) (env : CallEnv) (kv : Kv),
      s.store = .Offline o →
      ((∃ r, (s.maybe_reconnect env kv).service.store = .Online r) ↔
        (s.misses % RECONNECT_FREQUENCY = 0 ∧
         (∃ c, (try_connect env.probe).1 = .ok c) ∧
         (migrate_to_online o env.migrateCtx kv).1 = .ok ())) ∧
      ((∃ r, (s.maybe_reconnect env kv).service.store = .Online r) →
        (s.maybe_reconnect env kv).service.misses = 0 ∧
        (s.maybe_reconnect env kv).kv = (migrate_to_online o env.migrateCtx kv).2) ∧
      (¬ (∃ r, (s.maybe_reconnect env kv).service.store = .Online r) →
        (s.maybe_reconnect env kv).service = s) := by
  intro s o env kv hs
  by_cases hf : s.misses % RECONNECT_FREQUENCY = 0
  · cases hp : env.probe.result with
    | error e =>
      cases e
      rw [maybe_reconnect_offline_connfail s o env kv hs hf hp]
      dsimp only
      refine ⟨⟨fun hr => ?_, fun hr => ?_⟩, fun hr => ?_, fun _ => rfl⟩
      · obtain ⟨r, hr⟩ := hr
        rw [hs] at hr
        exact absurd hr (by simp)
      · obtain ⟨-, ⟨c, hc⟩, -⟩ := hr
        rw [try_connect_fst, hp] at hc
        exact absurd hc (by simp)
      · obtain ⟨r, hr⟩ := hr
        rw [hs] at hr
        exact absurd hr (by simp)
    | ok c =>
      rcases hmig : migrate_to_online o env.migrateCtx kv with ⟨mres, mkv⟩
      cases mres with
      | error e =>
        cases e
        have hm : (migrate_to_online o env.migrateCtx kv).1 = .error () := by rw [hmig]
        rw [maybe_reconnect_offline_migfail s o env kv c hs hf hp hm]
        dsimp only
        refine ⟨⟨fun hr => ?_, fun hr => ?_⟩, fun hr => ?_, fun _ => rfl⟩
        · obtain ⟨r, hr⟩ := hr
          rw [hs] at hr
          exact absurd hr (by simp)
        · obtain ⟨-, -, hok⟩ := hr
          exact absurd hok (by simp)
        · obtain ⟨r, hr⟩ := hr
          rw [hs] at hr
          exact absurd hr (by simp)
      | ok u =>
        cases u
        have hm : (migrate_to_online o env.migrateCtx kv).1 = .ok () := by rw [hmig]
        rw [maybe_reconnect_offline_migok s o env kv c hs hf hp hm]
        dsimp only
        refine ⟨⟨fun _ => ⟨hf, ⟨c, by rw [try_connect_fst, hp]⟩, rfl⟩,
          fun _ => ⟨RedisAuth.new c, rfl⟩⟩, fun _ => ⟨rfl, by rw [hmig]⟩, fun hno => ?_⟩
        exact absurd ⟨RedisAuth.new c, rfl⟩ hno
  · rw [maybe_reconnect_freq_miss s env kv hf]
    dsimp only
    refine ⟨⟨fun hr => ?_, fun hr => ?_⟩, fun hr => ?_, fun _ => rfl⟩
    · obtain ⟨r, hr⟩ := hr
      rw [hs] at hr
      exact absurd hr (by simp)
    · exact absurd hr.1 hf
    · obtain ⟨r, hr⟩ := hr
      rw [hs] at hr
      exact absurd hr (by simp)

/-- Witness for C7 at a concrete input: from the InMemory backend with a
succeeding probe and migration, the service promotes to Remote with the miss
counter reset to zero. -/
theorem C7_promote_only_after_migration_witness :
    ((sOffline.maybe_reconnect
        { fresh := 0, fresh2 := 0, probe := probeOk, migrateCtx := cacheOk,
          opCtx := cacheOk } []).service.misses = 0) ∧
    ((sOffline.maybe_reconnect
        { fresh := 0, fresh2 := 0, probe := probeOk, migrateCtx := cacheOk,
          opCtx := cacheOk } []).kv =
      (migrate_to_online OfflineAuth.new cacheOk []).2) :=
  (C7_promote_only_after_migration sOffline OfflineAuth.new
    { fresh := 0, fresh2 := 0, probe := probeOk, migrateCtx := cacheOk, opCtx := cacheOk }
    [] rfl).2.1 ⟨RedisAuth.new Cache.mk, by decide⟩

/-- C9: a reconnect attempt happens during generate_user_token exactly when
the active backend is InMemory and the miss counter is congruent to zero
modulo RECONNECT_FREQUENCY, and during validate exactly when additionally
the token string parses; every call that starts InMemory and is still served
by InMemory (reconnect absent or failed) increments the miss counter by one;
and no reconnect attempt is ever made while the Remote backend is active. -/
theorem C9_reconnect_exactly_on_frequency :
    ∀ (s : AuthService) (env : CallEnv) (kv : Kv) (user_id : Nat)
      (username token_str : Str),
      ((s.generate_user_token env kv user_id username).attempted = true ↔
        ((∃ o, s.store = .Offline o) ∧ s.misses % RECONNECT_FREQUENCY = 0)) ∧
      ((s.validate env kv user_id username token_str).attempted = true ↔
        ((Uuid.parseStr token_str).isSome = true ∧ (∃ o, s.store = .Offline o) ∧
          s.misses % RECONNECT_FREQUENCY = 0)) ∧
      (∀ o, s.store = .Offline o →
        (∃ o', (s.maybe_reconnect env kv).service.store = .Offline o') →
        (s.generate_user_token env kv user_id username).service.misses = s.misses + 1) ∧
      (∀ o, s.store = .Offline o → (Uuid.parseStr token_str).isSome = true →
        (∃ o', (s.maybe_reconnect env kv).service.store = .Offline o') →
        (s.validate env kv user_id username token_str).service.misses = s.misses + 1) ∧
      (∀ r, s.store = .Online r →
        (s.generate_user_token env kv user_id username).attempted = false ∧
        (s.validate env kv user_id username token_str).attempted = false) := by
  intro s env kv user_id username token_str
  refine ⟨?_, ?_, ?_, ?_, ?_⟩
  · unfold AuthService.generate_user_token
    rw [generate_serve_attempted]
    exact reconnectPhase_attempted_iff s env kv
  · cases hp : Uuid.parseStr token_str with
    | none =>
      rw [validate_eq_of_parse_none s env kv user_id username token_str hp]
      simp
    | some token =>
      rw [validate_eq_of_parse_some s env kv user_id username token_str token hp,
        validate_serve_attempted]
      rw [reconnectPhase_attempted_iff]
      simp
  · intro o hs hoff
    obtain ⟨o', ho'⟩ := hoff
    unfold AuthService.generate_user_token
    rw [reconnectPhase_offline s o env kv hs]
    rw [generate_serve_offline _ env user_id username o' ho']
    dsimp only
    rw [maybe_reconnect_offline_keeps_service s env kv o o' hs ho']
  · intro o hs hp hoff
    obtain ⟨o', ho'⟩ := hoff
    obtain ⟨token, htok⟩ := Option.isSome_iff_exists.mp hp
    rw [validate_eq_of_parse_some s env kv user_id username token_str token htok,
      reconnectPhase_offline s o env kv hs,
      validate_serve_offline _ env user_id username token o' ho']
    dsimp only
    rw [maybe_reconnect_offline_keeps_service s env kv o o' hs ho']
  · intro r hs
    constructor
    · unfold AuthService.generate_user_token
      rw [generate_serve_attempted, reconnectPhase_online s r env kv hs]
    · cases hp : Uuid.parseStr token_str with
      | none => rw [validate_eq_of_parse_none s env kv user_id username token_str hp]
      | some token =>
        rw [validate_eq_of_parse_some s env kv user_id username token_str token hp,
          validate_serve_attempted, reconnectPhase_online s r env kv hs]

/-- Witness for C9 at a concrete input: from the InMemory backend with a
failing probe, an issuance attempts a reconnect (miss counter congruent to
zero mod RECONNECT_FREQUENCY) and, staying InMemory, increments the miss
counter from zero to one. -/
theorem C9_reconnect_exactly_on_frequency_witness :
    ((sOffline.generate_user_token (envRemoteOk 1) [] 42 uname0).attempted = true) ∧
    ((sOffline.generate_user_token (envRemoteOk 1) [] 42 uname0).service.misses
      = sOffline.misses + 1) :=
  ⟨(C9_reconnect_exactly_on_frequency sOffline (envRemoteOk 1) [] 42 uname0 []).1.mpr
      ⟨⟨OfflineAuth.new, rfl⟩, by decide⟩,
   (C9_reconnect_exactly_on_frequency sOffline (envRemoteOk 1) [] 42 uname0 []).2.2.1
      OfflineAuth.new rfl ⟨OfflineAuth.new, by decide⟩⟩

/-- C1 counterexample: with the Remote backend active and healthy, issuing
token 1 to user 42, then token 2 to the same user, does not invalidate the
first token: validating the first token's string still returns Ok true,
because the second issuance overwrites only the username-keyed entry while
the first token's token-keyed entry remains in the store. -/
theorem C1_cex_old_token_still_validates_on_remote :
    (sOnline.generate_user_token (envRemoteOk 1) [] 42 uname0).result = .ok 1 ∧
    ((sOnline.generate_user_token (envRemoteOk 1) [] 42 uname0).service.generate_user_token
      (envRemoteOk 2) (sOnline.generate_user_token (envRemoteOk 1) [] 42 uname0).kv
      42 uname0).result = .ok 2 ∧
    (((sOnline.generate_user_token (envRemoteOk 1) [] 42 uname0).service.generate_user_token
        (envRemoteOk 2) (sOnline.generate_user_token (envRemoteOk 1) [] 42 uname0).kv
        42 uname0).service.validate (envRemoteOk 3)
      ((sOnline.generate_user_token (envRemoteOk 1) [] 42 uname0).service.generate_user_token
        (envRemoteOk 2) (sOnline.generate_user_token (envRemoteOk 1) [] 42 uname0).kv
        42 uname0).kv 42 uname0 (Uuid.toStr 1)).result = .ok true :=
  ⟨by decide, by decide, by decide⟩

/-- C1 (amended): invalidation holds when the InMemory backend is active:
with the remote store unreachable throughout, issuing a second token for a
user makes validation of the first token return Ok false while the second
validates Ok true, and the registry holds exactly one entry for that user
id; on the Remote backend the second issuance does not invalidate the first
token, whose token-keyed entry remains live. -/
theorem C1_second_issue_invalidates_on_inmemory :
    ∀ (s : AuthService) (o : OfflineAuth) (env1 env2 env3 env4 : CallEnv) (kv : Kv)
      (user_id : Nat) (username : Str),
      s.store = .Offline o →
      env1.probe.result = .error () → env2.probe.result = .error () →
      env3.probe.result = .error () → env4.probe.result = .error () →
      env1.fresh ≠ env2.fresh →
      (let g1 := s.generate_user_token env1 kv user_id username
       let g2 := g1.service.generate_user_token env2 g1.kv user_id username
       (g2.service.validate env3 g2.kv user_id username (Uuid.toStr env1.fresh)).result
          = .ok false ∧
       (g2.service.validate env4 g2.kv user_id username (Uuid.toStr env2.fresh)).result
          = .ok true ∧
       ∃ o2, g2.service.store = .Offline o2 ∧
         o2.tokens.filter (fun e => decide (e.1 = user_id)) = [(user_id, env2.fresh)]) := by
  intro s o env1 env2 env3 env4 kv user_id username hs hp1 hp2 hp3 hp4 hne
  have hG1 := generate_offline_probe_fail s o env1 kv user_id username hs hp1
  dsimp only
  rw [hG1]
  dsimp only
  rw [generate_offline_probe_fail _ _ env2 kv user_id username rfl hp2]
  dsimp only
  rw [validate_offline_probe_fail _ _ env3 kv user_id username env1.fresh rfl hp3,
    validate_offline_probe_fail _ _ env4 kv user_id username env2.fresh rfl hp4]
  dsimp only
  rw [OfflineAuth.validate_last_insert, OfflineAuth.validate_last_insert]
  refine ⟨?_, ?_, ?_⟩
  · rw [beq_eq_false_iff_ne.mpr (Ne.symm hne)]
  · simp
  · exact ⟨_, rfl, tokensInsert_filter_self _ user_id env2.fresh⟩

/-- Witness for C1 at a concrete input: starting from an empty InMemory
backend with the remote store unreachable, issuing token 1 then token 2 to
user 42 makes validation of token 1 return Ok false. -/
theorem C1_second_issue_invalidates_on_inmemory_witness :
    (let g1 := sOffline.generate_user_token (envRemoteOk 1) [] 42 uname0
     let g2 := g1.service.generate_user_token (envRemoteOk 2) g1.kv 42 uname0
     (g2.service.validate (envRemoteOk 3) g2.kv 42 uname0 (Uuid.toStr 1)).result
        = .ok false ∧
     (g2.service.validate (envRemoteOk 4) g2.kv 42 uname0 (Uuid.toStr 2)).result
        = .ok true ∧
     ∃ o2, g2.service.store = .Offline o2 ∧
       o2.tokens.filter (fun e => decide (e.1 = 42)) = [(42, 2)]) :=
  C1_second_issue_invalidates_on_inmemory sOffline OfflineAuth.new
    (envRemoteOk 1) (envRemoteOk 2) (envRemoteOk 3) (envRemoteOk 4) [] 42 uname0
    rfl rfl rfl rfl rfl (by decide)

/-- C2 counterexample: the account layer accepts any nonempty username, and
for the registrable username containing a bang character, validating the
token just issued on the healthy Remote backend does not return Ok true: the
packed username-bang-user_id value fails to split back, so the call returns
the unit error (and demotes the service). -/
theorem C2_cex_bang_username_breaks_validate :
    (sOnline.generate_user_token (envRemoteOk 7) [] 42 unameBang).result = .ok 7 ∧
    ((sOnline.generate_user_token (envRemoteOk 7) [] 42 unameBang).service.validate
      (envRemoteOk 7) (sOnline.generate_user_token (envRemoteOk 7) [] 42 unameBang).kv
      42 unameBang (Uuid.toStr 7)).result = .error () :=
  ⟨by decide, by decide⟩

/-- C2 (amended): validating the token just issued succeeds on both
backends, provided on the Remote backend that the issuance write and the
validation read reach the store and that the username is nonempty and free
of the bang character used by the packed username-bang-user_id encoding
(for a username containing a bang, the remote validation errs instead); on
the InMemory backend it holds for every username while the remote store is
unreachable. -/
theorem C2_validate_of_issued_token_true :
    ∀ (s : AuthService) (env env' : CallEnv) (kv : Kv) (user_id : Nat) (username : Str),
      (∀ r, s.store = .Online r →
        user_id < 2 ^ 64 → username ≠ [] → '!' ∉ username →
        env.opCtx.connOk = true → env.opCtx.queryOk = true →
        env'.opCtx.connOk = true → env'.opCtx.getErr = none →
        (s.generate_user_token env kv user_id username).result = .ok env.fresh ∧
        ((s.generate_user_token env kv user_id username).service.validate env'
            (s.generate_user_token env kv user_id username).kv user_id username
            (Uuid.toStr env.fresh)).result = .ok true) ∧
      (∀ o, s.store = .Offline o →
        env.probe.result = .error () → env'.probe.result = .error () →
        (s.generate_user_token env kv user_id username).result = .ok env.fresh ∧
        ((s.generate_user_token env kv user_id username).service.validate env'
            (s.generate_user_token env kv user_id username).kv user_id username
            (Uuid.toStr env.fresh)).result = .ok true) := by
  intro s env env' kv user_id username
  constructor
  · intro r hsr hid hneu hbang hc1 hc2 hv1 hv2
    have hG : s.generate_user_token env kv user_id username =
        { result := .ok env.fresh, service := s,
          kv := kvSet (kvSet kv (Uuid.toStr env.fresh)
              (username ++ '!' :: natToStr user_id) DAY_IN_SECONDS)
            username (Uuid.toStr env.fresh ++ '!' :: natToStr user_id) DAY_IN_SECONDS,
          attempted := false } := by
      show generate_serve (reconnectPhase s env kv) env user_id username = _
      rw [reconnectPhase_online s r env kv hsr]
      rw [generate_serve_online_ok _ env user_id username r env.fresh _ hsr
        (generate_for_user_all_ok r env.fresh user_id username env.opCtx kv hc1 hc2)]
    refine ⟨by rw [hG], ?_⟩
    rw [hG]
    dsimp only
    rw [validate_eq_of_parse_some s env' _ user_id username (Uuid.toStr env.fresh)
      env.fresh (Uuid.parseStr_toStr env.fresh)]
    rw [reconnectPhase_online s r env' _ hsr]
    rw [validate_serve_online_ok _ env' user_id username env.fresh r true hsr
      (validate_username_after_issue r username env.fresh user_id env'.opCtx kv
        hv1 hv2 hid hneu hbang)]
  · intro o hso hp hp'
    have hG := generate_offline_probe_fail s o env kv user_id username hso hp
    refine ⟨by rw [hG], ?_⟩
    rw [hG]
    dsimp only
    rw [validate_offline_probe_fail _ _ env' kv user_id username env.fresh rfl hp']
    dsimp only
    rw [OfflineAuth.validate_last_insert]
    simp

/-- Witness for C2 at a concrete input: on the healthy Remote backend, user
42 with a plain username is issued token 7 and validating its string form
immediately afterwards returns Ok true. -/
theorem C2_validate_of_issued_token_true_witness :
    (sOnline.generate_user_token (envRemoteOk 7) [] 42 uname0).result = .ok 7 ∧
    ((sOnline.generate_user_token (envRemoteOk 7) [] 42 uname0).service.validate
      (envRemoteOk 7) (sOnline.generate_user_token (envRemoteOk 7) [] 42 uname0).kv
      42 uname0 (Uuid.toStr 7)).result = .ok true :=
  (C2_validate_of_issued_token_true sOnline (envRemoteOk 7) (envRemoteOk 7) [] 42
    uname0).1 (RedisAuth.new Cache.mk) rfl (by decide) (by decide) (by decide)
    rfl rfl rfl rfl

end Posted
